import Mathlib

/-!
Verification of the single-instance coordination core of `fraizdev/ga-test`
(`libs/client/src/client/lock.py` and `libs/client/src/client/socket.py`).

The Python classes are shallowly embedded as pure Lean functions over an
explicit in-process state, an explicit file-system state, and oracle values
describing the outcomes of the OS calls (open, flock/locking, close, socket
connect). Each operation of the source is translated branch for branch; the
POSIX and Windows variants of a syscall sequence are collapsed into a single
oracle outcome, since the Python code treats both identically at every
decision point that the properties below depend on.
-/

namespace Client

/-! ## Lock client (`client/lock.py`) -/

/-- The in-process state of `LockClient`: the optional held file descriptor
(`_fd`). The permission mode `_mode` is the constant `0o644` and is kept as a
definition rather than a field. -/
structure LockClient where
  fd : Option Nat
deriving Repr, DecidableEq

/-- `LockClient._mode = 0o644`. -/
def LockClient.mode : Nat := 0o644

/-- The file-system state visible to the lock client: whether the backing
lock file currently exists on disk. -/
structure World where
  fileExists : Bool
deriving Repr, DecidableEq

/-- Outcome of `os.open(lockfile, O_RDWR | O_CREAT | O_EXCL, mode)`:
either a fresh descriptor, or an `OSError` with an errno (`EACCES` for
permission denied, anything else for the remaining cases, `EEXIST` for the
file already existing included). The Python code catches every `OSError`. -/
inductive OpenOutcome where
  | ok (fd : Nat)
  | fail (errno : Int)
deriving Repr, DecidableEq

/-- Outcome of the non-blocking lock call (`fcntl.flock(fd, LOCK_EX | LOCK_NB)`
on POSIX, `msvcrt.locking(fd, LK_NBLCK, 1)` on Windows): success, or an
`OSError` with an errno. The Python code catches every `OSError`. -/
inductive LockOutcome where
  | ok
  | fail (errno : Int)
deriving Repr, DecidableEq

def EACCES : Int := 13
def EEXIST : Int := 17
def ENOSYS : Int := 38

/-- `LockClient.is_locked`: true exactly when `_fd is not None`. -/
def LockClient.is_locked (c : LockClient) : Bool :=
  c.fd.isSome

/-- The scoped-acquisition guard `AcquireLock` returned by `acquire`;
its `__exit__` calls `release` on the wrapped client. -/
structure AcquireLock where
  lock : LockClient
deriving Repr, DecidableEq

/-- `LockClient.acquire`, translated branch for branch:

* if `self.is_locked`, nothing is done;
* otherwise `os.open(lockfile, O_RDWR | O_CREAT | O_EXCL, mode)` is attempted;
  on `OSError` (any errno: `EACCES` logs a warning, everything else logs an
  exception) `_fd` is set to `None`;
* on open success the file now exists and the non-blocking lock is attempted;
  on `OSError` (any errno, after logging) the descriptor is closed and `_fd`
  is set to `None`; the freshly created file is not removed;
* in every case an `AcquireLock` guard wrapping the (final) client is
  returned and no exception escapes, since both `try` blocks catch `OSError`,
  the only error the wrapped calls raise. -/
def LockClient.acquire (c : LockClient) (w : World)
    (openO : OpenOutcome) (lockO : LockOutcome) :
    LockClient × World × AcquireLock :=
  if c.is_locked then
    (c, w, ⟨c⟩)
  else
    match openO with
    | .fail _ =>
        let c₁ : LockClient := ⟨none⟩
        (c₁, w, ⟨c₁⟩)
    | .ok fd =>
        let w₁ : World := ⟨true⟩
        match lockO with
        | .ok =>
            let c₁ : LockClient := ⟨some fd⟩
            (c₁, w₁, ⟨c₁⟩)
        | .fail _ =>
            let c₁ : LockClient := ⟨none⟩
            (c₁, w₁, ⟨c₁⟩)

/-- `LockClient.release`, translated branch for branch:

* no-op if `not self.is_locked`;
* otherwise, after `time.sleep(0.3)`, the sequence
  unlock (`fchmod` under `suppress(PermissionError)` then `flock(LOCK_UN)` on
  POSIX, `locking(LK_UNLCK)` on Windows) followed by `os.close(fd)` runs under
  a `try`; `releaseFails` is true when that sequence raises: then the error is
  only logged and `_fd` keeps its value, otherwise `_fd` is set to `None`;
* in both cases `lockfile.unlink(missing_ok=True)` then removes the backing
  file (under `suppress(FileNotFoundError)`, and `missing_ok` already makes a
  missing file a no-op). -/
def LockClient.release (c : LockClient) (w : World) (releaseFails : Bool) :
    LockClient × World :=
  if ¬ c.is_locked then
    (c, w)
  else
    let c₁ : LockClient := if releaseFails then c else ⟨none⟩
    (c₁, ⟨false⟩)

/-- The guard's `__exit__`: `self.lock.release()` (`releaseFails` is the
oracle for the unlock/chmod/close sequence inside that `release` call). -/
def AcquireLock.exit (g : AcquireLock) (w : World) (releaseFails : Bool) :
    LockClient × World :=
  g.lock.release w releaseFails

/-- `LockClient.exists_running`, translated branch for branch:

* returns `false` when `self.is_locked` or the lock file does not exist;
* otherwise opens the file and attempts the non-blocking take-and-release
  probe; `probeRaises` is the oracle saying whether that open/lock/unlock
  sequence raises `OSError`: if it raises the result is `true`, on success
  the result is `false`. -/
def LockClient.exists_running (c : LockClient) (w : World)
    (probeRaises : Bool) : Bool :=
  if c.is_locked ∨ ¬ w.fileExists then
    false
  else
    probeRaises

/-- The probe behaviour that claim C1 ascribes to `exists_running`
(independent of the client's own state): `false` when no backing file
exists, otherwise `true` exactly when the probing lock attempt fails. -/
def probeSpec (w : World) (probeRaises : Bool) : Bool :=
  if ¬ w.fileExists then false else probeRaises

/-! ## `LockClient.wait`

The polling loop is modelled over discrete time: poll number `n` happens at
elapsed time `n * interval` (the loop body sleeps `interval` between polls
and the polls themselves are treated as instantaneous). `running n` is the
value `exists_running` would return at poll `n`. The Python loop

```
while self.exists_running:
    if timeout is not None and (time.monotonic() - start) >= timeout:
        return False
    time.sleep(interval)
return True
```

with a non-null timeout becomes `waitGo`; the `fuel` argument only bounds
the recursion and is chosen large enough in `LockClient.wait` that it is
never exhausted when `interval > 0`. The returned pair records the result
and the index of the poll at which the loop returned. -/

def waitGo (running : Nat → Bool) (timeout interval : Nat) :
    Nat → Nat → Option (Bool × Nat)
  | 0, _ => none
  | fuel + 1, n =>
    if running n = false then some (true, n)
    else if timeout ≤ n * interval then some (false, n)
    else waitGo running timeout interval fuel (n + 1)

/-- `LockClient.wait(timeout, interval)` for a non-null `timeout`, run with
enough fuel that the loop always resolves when `interval > 0`. -/
def LockClient.wait (running : Nat → Bool) (timeout interval : Nat) :
    Option (Bool × Nat) :=
  waitGo running timeout interval (timeout / interval + 2) 0

/-! ## Socket client (`client/socket.py`) -/

/-- The in-process state of `SocketClient`: the instance `name`, the
optional caller-supplied `default_path` override, and the optional open
transport handle `_pipe`. -/
structure SocketClient where
  name : String
  default_path : Option String := none
  pipe : Option Nat := none
deriving Repr, DecidableEq

/-- The environment variables read by `socket_path` on the POSIX platform,
`os.getenv` style: `none` when unset. A variable set to the empty string is
present but not populated (`if base_dir:` is false on it). -/
structure Env where
  xdg_runtime_dir : Option String := none
  home : Option String := none
  tmpdir : Option String := none
deriving Repr, DecidableEq

/-- Python truthiness of an optional string: `some s` with `s` nonempty. -/
def strTruthy : Option String → Bool
  | none => false
  | some s => s != ""

/-- `Path(base) / child` rendered back to a string, for the cases arising
here (a single child component with no separators or dots of its own): a
trailing separator on the base is not doubled. -/
def pathJoin (base child : String) : String :=
  if base.data.getLast? = some '/' then base ++ child else base ++ "/" ++ child

/-- The configuration errors of `client/exceptions.py` that `socket_path`
can raise: `SocketPathError` when no environment variable yields a base
directory. -/
inductive SocketError where
  | socketPathError
deriving Repr, DecidableEq

/-- `SocketClient.socket_path`, translated branch for branch:

* a truthy `default_path` wins;
* on Windows the reserved pipe namespace path is produced;
* on POSIX the first populated variable among `XDG_RUNTIME_DIR`, `HOME`,
  `TMPDIR` gives the base directory, joined with `'.' + name`;
* with none populated, `SocketPathError` is raised. -/
def SocketClient.socket_path (windows : Bool) (c : SocketClient) (env : Env) :
    Except SocketError String :=
  if strTruthy c.default_path then
    .ok (c.default_path.getD "")
  else if windows then
    .ok ("\\\\.\\pipe\\" ++ c.name)
  else if strTruthy env.xdg_runtime_dir then
    .ok (pathJoin (env.xdg_runtime_dir.getD "") ("." ++ c.name))
  else if strTruthy env.home then
    .ok (pathJoin (env.home.getD "") ("." ++ c.name))
  else if strTruthy env.tmpdir then
    .ok (pathJoin (env.tmpdir.getD "") ("." ++ c.name))
  else
    .error .socketPathError

/-- `SocketClient.is_connect`: true exactly when `_pipe is not None`. -/
def SocketClient.is_connect (c : SocketClient) : Bool :=
  c.pipe.isSome

/-- The scoped-connection guard `ConnectSocket` returned by `connect`;
its `__exit__` calls `disconnect` on the wrapped client. -/
structure ConnectSocket where
  socket : SocketClient
deriving Repr, DecidableEq

/-- Outcome of the transport-opening call inside `connect`
(`open(path, mode='r+b')` on Windows, `socket.socket(AF_UNIX)` plus
`sock.connect(path)` on POSIX): a handle on success, or one of the
exceptions those calls raise. Only `FileNotFoundError` and
`ConnectionRefusedError` appear in the `except` clause of the source;
`PermissionError` (and any other `OSError`) is not caught there. -/
inductive ConnectOutcome where
  | ok (handle : Nat)
  | fileNotFound
  | connectionRefused
  | permissionDenied
deriving Repr, DecidableEq

/-- The exceptions that can escape `SocketClient.connect`. -/
inductive ConnectError where
  | permissionError
deriving Repr, DecidableEq

/-- `SocketClient.connect`, translated branch for branch:

* if `self.is_connect`, the attempt is skipped;
* otherwise the transport is opened; `FileNotFoundError` and
  `ConnectionRefusedError` are caught, logged, and leave `_pipe = None`;
  a `PermissionError` is not caught and propagates to the caller;
* on every non-raising path a `ConnectSocket` guard wrapping the (final)
  client is returned. -/
def SocketClient.connect (c : SocketClient) (o : ConnectOutcome) :
    Except ConnectError (SocketClient × ConnectSocket) :=
  if c.is_connect then
    .ok (c, ⟨c⟩)
  else
    match o with
    | .ok h =>
        let c₁ : SocketClient := { c with pipe := some h }
        .ok (c₁, ⟨c₁⟩)
    | .fileNotFound =>
        let c₁ : SocketClient := { c with pipe := none }
        .ok (c₁, ⟨c₁⟩)
    | .connectionRefused =>
        let c₁ : SocketClient := { c with pipe := none }
        .ok (c₁, ⟨c₁⟩)
    | .permissionDenied =>
        .error .permissionError

/-- `SocketClient.disconnect`, translated branch for branch:

* no-op if `not self.is_connect`;
* otherwise `pipe.close()` runs under a `try` catching every exception;
  `closeFails` is true when it raises: then the error is only logged and
  `_pipe` keeps its value, otherwise `_pipe` is set to `None`. -/
def SocketClient.disconnect (c : SocketClient) (closeFails : Bool) :
    SocketClient :=
  if ¬ c.is_connect then
    c
  else if closeFails then
    c
  else
    { c with pipe := none }

/-! ## Theorems -/

theorem strTruthy_none : strTruthy none = false := rfl

theorem strTruthy_some (s : String) : strTruthy (some s) = (s != "") := rfl

/-- Claim C1, counterexample. A client that itself holds the lock
(`_fd = some 0`), a backing file that exists, and a probe that would fail
(someone — namely this process — holds the lock): the code returns `false`
where the claimed own-state-independent probe behaviour returns `true`, so
`exists_running` is not independent of this process's own lock state. -/
theorem exists_running_own_state_counterexample :
    LockClient.exists_running ⟨some 0⟩ ⟨true⟩ true = false ∧
      probeSpec ⟨true⟩ true = true := by
  decide

/-- Claim C1, amended: `exists_running` returns `false` whenever this
process itself holds the lock; only on a client that does not hold the lock
is it the claimed probe — `false` when no backing lock file exists, and
otherwise `true` exactly when the non-blocking take-and-release lock
attempt fails. -/
theorem exists_running_probe (c : LockClient) (w : World) (p : Bool) :
    c.exists_running w p =
      if c.is_locked then false else probeSpec w p := by
  rcases c with ⟨_ | fd⟩ <;> rcases w with ⟨_ | _⟩ <;>
    simp [LockClient.exists_running, LockClient.is_locked, probeSpec]

/-- Claim C2: a client that holds the lock, after a `release()` whose
unlock/restore-permissions/close sequence succeeds, reports
`is_locked = false` and the backing lock file no longer exists on disk. -/
theorem release_clean (c : LockClient) (w : World) (h : c.is_locked = true) :
    (c.release w false).1.is_locked = false ∧
      (c.release w false).2.fileExists = false := by
  rcases c with ⟨_ | fd⟩
  · simp [LockClient.is_locked] at h
  · simp [LockClient.release, LockClient.is_locked]

/-- Witness for C2 at `_fd = some 5`, file present. -/
theorem release_clean_witness :
    (LockClient.is_locked ⟨some 5⟩ = true) ∧
      ((LockClient.release ⟨some 5⟩ ⟨true⟩ false).1.is_locked = false ∧
        (LockClient.release ⟨some 5⟩ ⟨true⟩ false).2.fileExists = false) :=
  ⟨by decide, release_clean ⟨some 5⟩ ⟨true⟩ (by decide)⟩

/-- Claim C3: `release()` is a no-op when the lock is not held; when it is
held, the in-process state is reset to not-held exactly on success of the
unlock/restore-permissions/close sequence, so after a failed release
(`releaseFails = true`) the instance still reports `is_locked = true`. -/
theorem release_error_handling (c : LockClient) (w : World) (b : Bool) :
    (c.is_locked = false → c.release w b = (c, w)) ∧
      (c.is_locked = true →
        (c.release w b).1.is_locked = if b then true else false) := by
  rcases c with ⟨_ | fd⟩
  · constructor
    · intro _
      simp [LockClient.release, LockClient.is_locked]
    · intro h
      simp [LockClient.is_locked] at h
  · constructor
    · intro h
      simp [LockClient.is_locked] at h
    · intro _
      cases b <;> simp [LockClient.release, LockClient.is_locked]

/-- Witness for C3: no-op on `_fd = none`, still held after a failed
release on `_fd = some 2`. -/
theorem release_error_handling_witness :
    (LockClient.release ⟨none⟩ ⟨true⟩ true = (⟨none⟩, ⟨true⟩)) ∧
      ((LockClient.release ⟨some 2⟩ ⟨true⟩ true).1.is_locked = true) :=
  ⟨(release_error_handling ⟨none⟩ ⟨true⟩ true).1 (by decide),
    by
      have := (release_error_handling ⟨some 2⟩ ⟨true⟩ true).2 (by decide)
      simpa using this⟩

/-- Claim C4: an `acquire()` on a not-held client that fails at the
create-and-exclusively-open step (any errno — the file already existing,
permission denied, anything else) or at the non-blocking-lock step leaves
the client not held, and still returns a guard wrapping the resulting
client whose scope exit invokes `release` on it. No exception escapes: in
the embedding `acquire` is a total function over all `OSError` outcomes of
both steps, mirroring the two `except OSError` handlers of the source. -/
theorem acquire_failure_degrades (c : LockClient) (w : World)
    (openO : OpenOutcome) (lockO : LockOutcome)
    (hheld : c.is_locked = false)
    (hfail : (∃ e, openO = OpenOutcome.fail e) ∨
      (∃ fd e, openO = OpenOutcome.ok fd ∧ lockO = LockOutcome.fail e)) :
    (c.acquire w openO lockO).1.is_locked = false ∧
      (c.acquire w openO lockO).2.2.lock = (c.acquire w openO lockO).1 ∧
      ∀ b, ((c.acquire w openO lockO).2.2).exit ((c.acquire w openO lockO).2.1) b =
        (c.acquire w openO lockO).1.release ((c.acquire w openO lockO).2.1) b := by
  rcases c with ⟨_ | fd0⟩
  · rcases hfail with ⟨e, rfl⟩ | ⟨fd, e, rfl, rfl⟩ <;>
      simp [LockClient.acquire, LockClient.is_locked, AcquireLock.exit]
  · simp [LockClient.is_locked] at hheld

/-- Witness for C4: permission denied at the open step on a fresh client. -/
theorem acquire_failure_degrades_witness :
    (LockClient.is_locked ⟨none⟩ = false) ∧
      ((LockClient.acquire ⟨none⟩ ⟨false⟩ (OpenOutcome.fail EACCES) LockOutcome.ok).1.is_locked = false ∧
        (LockClient.acquire ⟨none⟩ ⟨false⟩ (OpenOutcome.fail EACCES) LockOutcome.ok).2.2.lock =
          (LockClient.acquire ⟨none⟩ ⟨false⟩ (OpenOutcome.fail EACCES) LockOutcome.ok).1 ∧
        ∀ b, ((LockClient.acquire ⟨none⟩ ⟨false⟩ (OpenOutcome.fail EACCES) LockOutcome.ok).2.2).exit
            ((LockClient.acquire ⟨none⟩ ⟨false⟩ (OpenOutcome.fail EACCES) LockOutcome.ok).2.1) b =
          (LockClient.acquire ⟨none⟩ ⟨false⟩ (OpenOutcome.fail EACCES) LockOutcome.ok).1.release
            ((LockClient.acquire ⟨none⟩ ⟨false⟩ (OpenOutcome.fail EACCES) LockOutcome.ok).2.1) b) :=
  ⟨by decide,
    acquire_failure_degrades ⟨none⟩ ⟨false⟩ (OpenOutcome.fail EACCES) LockOutcome.ok
      (by decide) (Or.inl ⟨EACCES, rfl⟩)⟩

/-- Claim C9: `acquire()` on a client that already holds the lock is an
idempotent no-op — the client state and the file-system state are both
unchanged (no file-system operation is performed), nothing is raised, and
the scoped guard wrapping the client is returned. -/
theorem acquire_idempotent (c : LockClient) (w : World)
    (h : c.is_locked = true) (openO : OpenOutcome) (lockO : LockOutcome) :
    c.acquire w openO lockO = (c, w, ⟨c⟩) := by
  simp [LockClient.acquire, h]

/-- Witness for C9 at `_fd = some 7`. -/
theorem acquire_idempotent_witness :
    (LockClient.is_locked ⟨some 7⟩ = true) ∧
      LockClient.acquire ⟨some 7⟩ ⟨true⟩ (OpenOutcome.ok 9) LockOutcome.ok =
        (⟨some 7⟩, ⟨true⟩, ⟨⟨some 7⟩⟩) :=
  ⟨by decide, acquire_idempotent ⟨some 7⟩ ⟨true⟩ (by decide) (OpenOutcome.ok 9) LockOutcome.ok⟩

/-- Claim C10: when `acquire()` on a not-held client creates the lock file
(open succeeds, so the file now exists) but the subsequent non-blocking
lock on the fresh descriptor fails, the client closes the descriptor and
reports not-held, yet the freshly created lock file remains on disk — the
file-system state is not rolled back on this error path. -/
theorem acquire_lock_failure_leaves_file (c : LockClient) (w : World)
    (fd : Nat) (e : Int) (h : c.is_locked = false) :
    (c.acquire w (OpenOutcome.ok fd) (LockOutcome.fail e)).1.is_locked = false ∧
      (c.acquire w (OpenOutcome.ok fd) (LockOutcome.fail e)).2.1.fileExists = true := by
  rcases c with ⟨_ | fd0⟩
  · simp [LockClient.acquire, LockClient.is_locked]
  · simp [LockClient.is_locked] at h

/-- Witness for C10: open succeeds with descriptor 3 on a file that did not
exist, the lock step fails with `EACCES`; the file remains. -/
theorem acquire_lock_failure_leaves_file_witness :
    (LockClient.is_locked ⟨none⟩ = false) ∧
      ((LockClient.acquire ⟨none⟩ ⟨false⟩ (OpenOutcome.ok 3) (LockOutcome.fail EACCES)).1.is_locked = false ∧
        (LockClient.acquire ⟨none⟩ ⟨false⟩ (OpenOutcome.ok 3) (LockOutcome.fail EACCES)).2.1.fileExists = true) :=
  ⟨by decide, acquire_lock_failure_leaves_file ⟨none⟩ ⟨false⟩ 3 EACCES (by decide)⟩

/-- Claim C5: on the POSIX platform with no explicit override, the resolved
address is built from the first populated of `XDG_RUNTIME_DIR`, `HOME`,
`TMPDIR` joined with `'.' + name`; in particular with only `HOME` set it
equals `<home>/.<name>`; with none of the three populated, resolution
raises `SocketPathError`. -/
theorem socket_path_posix_precedence (c : SocketClient) (env : Env)
    (hover : c.default_path = none) :
    (strTruthy env.xdg_runtime_dir = true →
      c.socket_path false env = Except.ok (pathJoin (env.xdg_runtime_dir.getD "") ("." ++ c.name))) ∧
    (strTruthy env.xdg_runtime_dir = false → strTruthy env.home = true →
      c.socket_path false env = Except.ok (pathJoin (env.home.getD "") ("." ++ c.name))) ∧
    (strTruthy env.xdg_runtime_dir = false → strTruthy env.home = false →
      strTruthy env.tmpdir = true →
      c.socket_path false env = Except.ok (pathJoin (env.tmpdir.getD "") ("." ++ c.name))) ∧
    (strTruthy env.xdg_runtime_dir = false → strTruthy env.home = false →
      strTruthy env.tmpdir = false →
      c.socket_path false env = Except.error SocketError.socketPathError) ∧
    (∀ hdir, env.xdg_runtime_dir = none → env.home = some hdir → hdir ≠ "" →
      hdir.data.getLast? ≠ some '/' →
      c.socket_path false env = Except.ok (hdir ++ "/." ++ c.name)) := by
  refine ⟨?_, ?_, ?_, ?_, ?_⟩
  · intro h1
    simp [SocketClient.socket_path, hover, strTruthy_none, h1]
  · intro h1 h2
    simp [SocketClient.socket_path, hover, strTruthy_none, h1, h2]
  · intro h1 h2 h3
    simp [SocketClient.socket_path, hover, strTruthy_none, h1, h2, h3]
  · intro h1 h2 h3
    simp [SocketClient.socket_path, hover, strTruthy_none, h1, h2, h3]
  · intro hdir h1 h2 h3 h4
    have ht : strTruthy (some hdir) = true := by
      simp [strTruthy_some, h3]
    simp [SocketClient.socket_path, hover, strTruthy_none, h1, h2, ht, pathJoin, h4]
    rw [String.append_assoc hdir "/" ("." ++ c.name), String.append_assoc hdir "/." c.name]
    congr 1

/-- Witness for C5: with only `HOME = "/home/u"` populated the resolved
address of client `app` is `/home/u/.app`; with nothing populated the
resolution fails with `SocketPathError`. -/
theorem socket_path_posix_precedence_witness :
    (SocketClient.socket_path false ⟨"app", none, none⟩ ⟨none, some "/home/u", none⟩ =
        Except.ok "/home/u/.app") ∧
      (SocketClient.socket_path false ⟨"app", none, none⟩ ⟨none, none, none⟩ =
        Except.error SocketError.socketPathError) :=
  ⟨(socket_path_posix_precedence ⟨"app", none, none⟩ ⟨none, some "/home/u", none⟩ rfl).2.2.2.2
      "/home/u" rfl rfl (by decide) (by decide),
    (socket_path_posix_precedence ⟨"app", none, none⟩ ⟨none, none, none⟩ rfl).2.2.2.1
      rfl rfl rfl⟩

/-- Claim C6, counterexample. On a disconnected client, a permission-denied
failure of the transport-opening call is not among the exceptions caught by
`connect` (`except (FileNotFoundError, ConnectionRefusedError)`), so
`connect` raises instead of absorbing it into the disconnected state. -/
theorem connect_permission_counterexample :
    SocketClient.connect ⟨"app", none, none⟩ ConnectOutcome.permissionDenied =
      Except.error ConnectError.permissionError := rfl

/-- Claim C6, amended: `connect()` is an idempotent no-op when already
connected; an endpoint-missing (`FileNotFoundError`) or connection-refused
(`ConnectionRefusedError`) failure is logged and leaves the client
disconnected without raising; a permission-denied failure, however, is not
caught and propagates to the caller. -/
theorem connect_error_handling (c : SocketClient) :
    (c.is_connect = true → ∀ o, c.connect o = Except.ok (c, ⟨c⟩)) ∧
      (c.is_connect = false →
        ∀ o, (o = ConnectOutcome.fileNotFound ∨ o = ConnectOutcome.connectionRefused) →
          c.connect o = Except.ok ({ c with pipe := none }, ⟨{ c with pipe := none }⟩) ∧
            SocketClient.is_connect { c with pipe := none } = false) ∧
      (c.is_connect = false →
        c.connect ConnectOutcome.permissionDenied = Except.error ConnectError.permissionError) := by
  rcases c with ⟨name, dp, _ | h⟩
  · refine ⟨?_, ?_, ?_⟩
    · intro hc
      simp [SocketClient.is_connect] at hc
    · intro _ o ho
      rcases ho with rfl | rfl <;>
        simp [SocketClient.connect, SocketClient.is_connect]
    · intro _
      simp [SocketClient.connect, SocketClient.is_connect]
  · refine ⟨?_, ?_, ?_⟩
    · intro _ o
      simp [SocketClient.connect, SocketClient.is_connect]
    · intro hc
      simp [SocketClient.is_connect] at hc
    · intro hc
      simp [SocketClient.is_connect] at hc

/-- Witness for C6 (amended): an already-connected client is untouched by a
further `connect`; on a fresh client, endpoint-missing is absorbed with
`is_connect` still false. -/
theorem connect_error_handling_witness :
    (SocketClient.connect ⟨"app", none, some 4⟩ ConnectOutcome.fileNotFound =
        Except.ok (⟨"app", none, some 4⟩, ⟨⟨"app", none, some 4⟩⟩)) ∧
      (SocketClient.connect ⟨"app", none, none⟩ ConnectOutcome.fileNotFound =
          Except.ok (⟨"app", none, none⟩, ⟨⟨"app", none, none⟩⟩) ∧
        SocketClient.is_connect ⟨"app", none, none⟩ = false) :=
  ⟨(connect_error_handling ⟨"app", none, some 4⟩).1 rfl ConnectOutcome.fileNotFound,
    (connect_error_handling ⟨"app", none, none⟩).2.1 rfl ConnectOutcome.fileNotFound
      (Or.inl rfl)⟩

/-- Claim C8, counterexample. A connected client (`_pipe = some 7`) whose
`pipe.close()` raises: `disconnect` only logs the error and leaves `_pipe`
set, so `is_connect` is still true afterwards — the state is not marked
disconnected in every case. -/
theorem disconnect_close_failure_counterexample :
    SocketClient.is_connect (SocketClient.disconnect ⟨"app", none, some 7⟩ true) = true := by
  decide

/-- Claim C8, amended: `disconnect()` is an idempotent no-op when not
connected; when connected it closes the transport and clears the state on
a successful close, but when the close raises, the error is only logged and
the client remains marked connected. -/
theorem disconnect_error_handling (c : SocketClient) :
    (c.is_connect = false → ∀ b, c.disconnect b = c) ∧
      (c.is_connect = true →
        c.disconnect false = { c with pipe := none } ∧
          (c.disconnect true).is_connect = true) := by
  rcases c with ⟨name, dp, _ | h⟩
  · refine ⟨fun _ b => ?_, fun hc => ?_⟩
    · simp [SocketClient.disconnect, SocketClient.is_connect]
    · simp [SocketClient.is_connect] at hc
  · refine ⟨fun hc => ?_, fun _ => ?_⟩
    · simp [SocketClient.is_connect] at hc
    · constructor <;> simp [SocketClient.disconnect, SocketClient.is_connect]

/-- Witness for C8 (amended): no-op on a disconnected client; on a
connected client a clean close clears the pipe while a failing close leaves
`is_connect` true. -/
theorem disconnect_error_handling_witness :
    (SocketClient.disconnect ⟨"app", none, none⟩ true = ⟨"app", none, none⟩) ∧
      (SocketClient.disconnect ⟨"app", none, some 7⟩ false = ⟨"app", none, none⟩ ∧
        (SocketClient.disconnect ⟨"app", none, some 7⟩ true).is_connect = true) :=
  ⟨(disconnect_error_handling ⟨"app", none, none⟩).1 rfl true,
    (disconnect_error_handling ⟨"app", none, some 7⟩).2 rfl⟩

/-- Soundness of the polling loop: started at poll `n₀` with `fuel + 1`
iterations available and the timeout guaranteed to have elapsed by poll
`n₀ + fuel`, the loop resolves at some poll `n ≥ n₀`; it returns `true`
exactly when `running n` is `false`, every strictly earlier poll saw
`running` true with the timeout not yet elapsed, and a `false` result is
only produced once the timeout has elapsed. -/
theorem waitGo_sound (running : Nat → Bool) (T I : Nat) :
    ∀ (fuel n₀ : Nat), T ≤ (n₀ + fuel) * I →
      ∃ r n, waitGo running T I (fuel + 1) n₀ = some (r, n) ∧
        n₀ ≤ n ∧
        (r = true ↔ running n = false) ∧
        (∀ k, n₀ ≤ k → k < n → running k = true ∧ k * I < T) ∧
        (r = false → T ≤ n * I) := by
  intro fuel
  induction fuel with
  | zero =>
    intro n₀ h
    by_cases hr : running n₀ = false
    · refine ⟨true, n₀, ?_, le_refl _, by simp [hr], ?_, by simp⟩
      · simp [waitGo, hr]
      · intro k hk1 hk2
        exact absurd (lt_of_le_of_lt hk1 hk2) (lt_irrefl _)
    · have ht : T ≤ n₀ * I := by simpa using h
      refine ⟨false, n₀, ?_, le_refl _, by simp [hr], ?_, fun _ => ht⟩
      · simp [waitGo, hr, ht]
      · intro k hk1 hk2
        exact absurd (lt_of_le_of_lt hk1 hk2) (lt_irrefl _)
  | succ fuel ih =>
    intro n₀ h
    by_cases hr : running n₀ = false
    · refine ⟨true, n₀, ?_, le_refl _, by simp [hr], ?_, by simp⟩
      · simp [waitGo, hr]
      · intro k hk1 hk2
        exact absurd (lt_of_le_of_lt hk1 hk2) (lt_irrefl _)
    · by_cases ht : T ≤ n₀ * I
      · refine ⟨false, n₀, ?_, le_refl _, by simp [hr], ?_, fun _ => ht⟩
        · simp [waitGo, hr, ht]
        · intro k hk1 hk2
          exact absurd (lt_of_le_of_lt hk1 hk2) (lt_irrefl _)
      · have h' : T ≤ (n₀ + 1 + fuel) * I := by
          have harr : n₀ + 1 + fuel = n₀ + (fuel + 1) := by omega
          rw [harr]
          exact h
        obtain ⟨r, n, heq, hn, hiff, hall, hfalse⟩ := ih (n₀ + 1) h'
        refine ⟨r, n, ?_, by omega, hiff, ?_, hfalse⟩
        · simpa [waitGo, hr, ht] using heq
        · intro k hk1 hk2
          rcases Nat.eq_or_lt_of_le hk1 with heq' | hlt
          · refine heq' ▸ ⟨?_, ?_⟩
            · cases hrk : running n₀
              · exact absurd hrk hr
              · rfl
            · omega
          · exact hall k hlt hk2

/-- Claim C7: `wait(timeout=T, interval=I)` with a non-null timeout and a
positive interval polls `exists_running` at elapsed times `0, I, 2I, ...`
(`running n` being the probe's value at poll `n`) and always resolves at
some poll `n` with `n * I < T + I` — within the timeout plus one interval.
It returns `true` exactly when that poll observed `running` false (all
earlier polls having observed true within the timeout), and it returns
`false` only with the timeout elapsed (`T ≤ n * I`) and `running` having
stayed true at every poll up to and including `n` — in particular it
returns `false` whenever `running` stays true throughout, and `true` as
soon as a poll observes false within the timeout. -/
theorem wait_correct (running : Nat → Bool) (T I : Nat) (hI : 0 < I) :
    ∃ r n, LockClient.wait running T I = some (r, n) ∧
      n * I < T + I ∧
      (r = true ↔ running n = false) ∧
      (∀ k, k < n → running k = true) ∧
      (r = false → T ≤ n * I) := by
  have hfuel : T ≤ (0 + (T / I + 1)) * I := by
    have h1 : T % I < I := Nat.mod_lt T hI
    have h2 : I * (T / I) + T % I = T := Nat.div_add_mod T I
    have h3 : (0 + (T / I + 1)) * I = I * (T / I) + I := by ring
    omega
  obtain ⟨r, n, heq, hn, hiff, hall, hfalse⟩ :=
    waitGo_sound running T I (T / I + 1) 0 hfuel
  refine ⟨r, n, heq, ?_, hiff, fun k hk => (hall k (Nat.zero_le k) hk).1, hfalse⟩
  cases n with
  | zero =>
    omega
  | succ m =>
    have hm : m * I < T := (hall m (Nat.zero_le m) (Nat.lt_succ_self m)).2
    have : (m + 1) * I = m * I + I := by ring
    omega

/-- Witness for C7 at `T = 2`, `I = 1`, with the probe returning true at
every poll: the loop resolves with result `false` at poll 2, elapsed time
`2 < 2 + 1`. -/
theorem wait_correct_witness :
    0 < 1 ∧
      ∃ r n, LockClient.wait (fun _ => true) 2 1 = some (r, n) ∧
        n * 1 < 2 + 1 ∧
        (r = true ↔ (fun _ : Nat => true) n = false) ∧
        (∀ k, k < n → (fun _ : Nat => true) k = true) ∧
        (r = false → 2 ≤ n * 1) :=
  ⟨by decide, wait_correct (fun _ => true) 2 1 (by decide)⟩

end Client
